import Mathlib

/-!
Verification development for the `uster_waste` integration.

The definitions below are a shallow embedding of
`custom_components/uster_waste/sensor.py`:

* `parseDate` embeds the module-level `_parse_date` function, including the
  relevant behaviour of CPython's `datetime.strptime` for the two formats
  `"%d.%m.%Y"` and `"%d.%m.%y"` (the ordered-alternative regular expressions
  CPython builds for `%d`, `%m`, `%y`, `%Y`, the full-match requirement, the
  POSIX two-digit-year century rule, and the calendar validity check performed
  by the `datetime` constructor, whose `ValueError` is caught by the loop).
* `asyncUpdate` embeds `UsterWasteDataUpdateCoordinator.async_update`
  (sensor.py lines 93-178): the 24h cache check, URL fetch with status
  classification, HTML table discovery, row extraction, sorting, summary
  construction and the exception handler that builds the error-shaped dict.

Machine dates are modelled as proleptic-Gregorian day numbers relative to
1970-01-01 (`Date.toRata`); a Python `datetime` produced by `_parse_date`
always has time 00:00:00, so its comparison and subtraction behaviour is
fully captured by that day number.  "now" is an integer number of seconds
since the epoch.
-/

namespace UsterWaste

/-- A calendar date as produced by `datetime.strptime` (time is midnight). -/
structure Date where
  year : Nat
  month : Nat
  day : Nat
deriving DecidableEq, Repr

/-- Numeric value of an ASCII digit character. -/
def digitVal (c : Char) : Nat := c.toNat - 48

/-- Python `str.strip()` on a character list (whitespace both ends),
as applied at sensor.py line 41. -/
def pyStrip (cs : List Char) : List Char :=
  ((cs.dropWhile Char.isWhitespace).reverse.dropWhile Char.isWhitespace).reverse

/-- Fuelled core of Python `str.replace`: scan left to right, replace every
non-overlapping occurrence of `pat`.  The fuel equals the length of the
scanned list, which suffices whenever `pat` is nonempty (every step consumes
at least one character); all patterns used in sensor.py are nonempty. -/
def replaceFuel (pat rep : List Char) : Nat → List Char → List Char
  | 0, cs => cs
  | _ + 1, [] => []
  | fuel + 1, c :: rest =>
    if pat ≠ [] ∧ pat.isPrefixOf (c :: rest) then
      rep ++ replaceFuel pat rep fuel ((c :: rest).drop pat.length)
    else
      c :: replaceFuel pat rep fuel rest

/-- Python `s.replace(pat, rep)` for nonempty `pat`, on character lists. -/
def replaceAll (pat rep cs : List Char) : List Char :=
  replaceFuel pat rep cs.length cs

/-- `MONTH_MAP` from sensor.py lines 32-36, in dict insertion order (the
order the replacement loop at lines 43-44 iterates in). -/
def MONTH_MAP : List (String × String) :=
  [("Jan", "01"), ("Feb", "02"), ("Mrz", "03"), ("Mär", "03"),
   ("Apr", "04"), ("Mai", "05"), ("Jun", "06"), ("Jul", "07"),
   ("Aug", "08"), ("Sep", "09"), ("Okt", "10"), ("Nov", "11"), ("Dez", "12")]

/-- Lines 41-44 of sensor.py: strip, then substitute every month
abbreviation by its two-digit number, in `MONTH_MAP` order. -/
def normalizeDateStr (s : String) : List Char :=
  MONTH_MAP.foldl (fun acc kv => replaceAll kv.1.toList kv.2.toList acc)
    (pyStrip s.toList)

/-- The literal `.` separating the numeric fields in both formats. -/
def expectDot : List Char → Option (List Char)
  | '.' :: rest => some rest
  | _ => none

/-- CPython `%d` regex `3[01]|[12]\d|0[1-9]|[1-9]`: the alternatives that
match at the head of `cs`, in the order the regex engine tries them. -/
def dayAlts (cs : List Char) : List (Nat × List Char) :=
  (match cs with
    | '3' :: c :: rest =>
      if c == '0' || c == '1' then [(30 + digitVal c, rest)] else []
    | _ => []) ++
  (match cs with
    | c1 :: c2 :: rest =>
      if (c1 == '1' || c1 == '2') && c2.isDigit then
        [(10 * digitVal c1 + digitVal c2, rest)]
      else []
    | _ => []) ++
  (match cs with
    | '0' :: c :: rest =>
      if '1' ≤ c && c ≤ '9' then [(digitVal c, rest)] else []
    | _ => []) ++
  (match cs with
    | c :: rest =>
      if '1' ≤ c && c ≤ '9' then [(digitVal c, rest)] else []
    | _ => [])

/-- CPython `%m` regex `1[0-2]|0[1-9]|[1-9]`. -/
def monthAlts (cs : List Char) : List (Nat × List Char) :=
  (match cs with
    | '1' :: c :: rest =>
      if '0' ≤ c && c ≤ '2' then [(10 + digitVal c, rest)] else []
    | _ => []) ++
  (match cs with
    | '0' :: c :: rest =>
      if '1' ≤ c && c ≤ '9' then [(digitVal c, rest)] else []
    | _ => []) ++
  (match cs with
    | c :: rest =>
      if '1' ≤ c && c ≤ '9' then [(digitVal c, rest)] else []
    | _ => [])

/-- CPython `%Y` regex `\d\d\d\d`: exactly four digits. -/
def year4Alt : List Char → List (Nat × List Char)
  | a :: b :: c :: d :: rest =>
    if a.isDigit && b.isDigit && c.isDigit && d.isDigit then
      [(1000 * digitVal a + 100 * digitVal b + 10 * digitVal c + digitVal d, rest)]
    else []
  | _ => []

/-- CPython `%y` regex `\d\d`: exactly two digits. -/
def year2Alt : List Char → List (Nat × List Char)
  | a :: b :: rest =>
    if a.isDigit && b.isDigit then [(10 * digitVal a + digitVal b, rest)] else []
  | _ => []

/-- Backtracking match of the pattern day `.` month `.` year against the
whole string (CPython rejects the match when trailing characters remain).
Alternatives are tried in regex order; the continuation is attempted for
each, which is exactly the regex engine's backtracking. -/
def matchNumeric (yearAlt : List Char → List (Nat × List Char))
    (cs : List Char) : Option (Nat × Nat × Nat) :=
  (dayAlts cs).findSome? fun dp =>
    (expectDot dp.2).bind fun cs2 =>
      (monthAlts cs2).findSome? fun mp =>
        (expectDot mp.2).bind fun cs3 =>
          (yearAlt cs3).findSome? fun yp =>
            if yp.2.isEmpty then some (dp.1, mp.1, yp.1) else none

/-- Gregorian leap-year rule used by `datetime`. -/
def isLeapYear (y : Nat) : Bool :=
  y % 4 == 0 && (y % 100 != 0 || y % 400 == 0)

/-- Days in a month, as enforced by the `datetime` constructor. -/
def daysInMonth (y m : Nat) : Nat :=
  if m == 2 then (if isLeapYear y then 29 else 28)
  else if m == 4 || m == 6 || m == 9 || m == 11 then 30
  else 31

/-- The `datetime(year, month, day)` constructor: `ValueError` (here `none`)
unless `1 ≤ year ≤ 9999` and the day fits the month. -/
def mkDatetime (y m d : Nat) : Option Date :=
  if 1 ≤ y && y ≤ 9999 && 1 ≤ m && m ≤ 12 && 1 ≤ d && d ≤ daysInMonth y m then
    some { year := y, month := m, day := d }
  else none

/-- `datetime.strptime(s, "%d.%m.%Y")`, with `ValueError` as `none`. -/
def strptimeFullYear (cs : List Char) : Option Date :=
  match matchNumeric year4Alt cs with
  | some (d, m, y) => mkDatetime y m d
  | none => none

/-- `datetime.strptime(s, "%d.%m.%y")`: CPython resolves the two-digit year
by the POSIX rule (`00`-`68` to 2000-2068, `69`-`99` to 1969-1999). -/
def strptimeTwoDigitYear (cs : List Char) : Option Date :=
  match matchNumeric year2Alt cs with
  | some (d, m, y) =>
    mkDatetime (if y ≤ 68 then 2000 + y else 1900 + y) m d
  | none => none

/-- `_parse_date` from sensor.py lines 39-52: strip, substitute month
abbreviations, then try `"%d.%m.%Y"` and `"%d.%m.%y"` in order; `None`
when both raise `ValueError`. -/
def parseDate (s : String) : Option Date :=
  match strptimeFullYear (normalizeDateStr s) with
  | some d => some d
  | none => strptimeTwoDigitYear (normalizeDateStr s)

/-- Proleptic-Gregorian day number of a civil date, relative to 1970-01-01
(floor-division form of the standard days-from-civil algorithm).  Python
`datetime` values at midnight compare and subtract exactly as these day
numbers do. -/
def daysFromCivil (y m d : Int) : Int :=
  let yy := if m ≤ 2 then y - 1 else y
  let era := Int.fdiv yy 400
  let yoe := yy - era * 400
  let mp := Int.emod (m + 9) 12
  let doy := Int.fdiv (153 * mp + 2) 5 + d - 1
  let doe := yoe * 365 + Int.fdiv yoe 4 - Int.fdiv yoe 100 + doy
  era * 146097 + doe - 719468

/-- Day number of a parsed date (its `datetime` sits at midnight of this
day). -/
def Date.toRata (dt : Date) : Int :=
  daysFromCivil (Int.ofNat dt.year) (Int.ofNat dt.month) (Int.ofNat dt.day)

/-- `(dt - now).days` from sensor.py line 146: `dt` is the parsed date at
midnight (i.e. second `86400 * dt.toRata`), `now` is `datetime.now()` in
epoch seconds, and `timedelta.days` floors. -/
def daysUntilPy (dt : Date) (now : Int) : Int :=
  Int.fdiv (86400 * dt.toRata - now) 86400

/-- One `<table>` element: whether its `class` attribute is exactly the
marker `"table table-striped"`, and its `<tr>` rows, each row given as the
list of its `<td>` cell texts after `get_text(strip=True)`. -/
structure Table where
  hasMarker : Bool
  rows : List (List String)
deriving DecidableEq, Repr

/-- An HTML document, reduced to its tables in document order. -/
structure Html where
  tables : List Table
deriving DecidableEq, Repr

/-- Lines 116-119: `soup.find("table", class_="table table-striped")`,
falling back to `soup.find("table")`. -/
def findTable (html : Html) : Option Table :=
  match html.tables.find? (fun t => t.hasMarker) with
  | some t => some t
  | none => html.tables.head?

/-- One element of the `entries` list of the success dict
(sensor.py lines 157-164). -/
structure EntryOut where
  type : String
  date : String
  days_until : Int
deriving DecidableEq, Repr

/-- The dict stored in `self.data`.  The success dict (lines 152-165) has
`error` absent; the error dict (lines 170-175) has `type` and `days_until`
absent.  Absent keys are modelled as `none`, matching the `dict.get`
reads performed by the consumer. -/
structure Summary where
  next_collection : Option String
  date : Option String
  type : Option String
  days_until : Option Int
  entries : List EntryOut
  error : Option String
deriving DecidableEq, Repr

/-- One element of the in-loop `entries` list (lines 142-147). -/
structure RowEntry where
  sammlung : String
  wann : String
  date_obj : Int
  days_until : Int
deriving DecidableEq, Repr

/-- Line 136: `cols[1].get_text(strip=True).replace("  ", " ")`. -/
def pyReplaceNbsp (s : String) : String :=
  String.mk (replaceAll "  ".toList " ".toList s.toList)

/-- Loop body, lines 131-147: rows with fewer than two cells are skipped,
the date text is cleaned and parsed, rows with unparsable dates are
skipped, surviving rows become entries with `days_until` computed from
`now`. -/
def rowToEntry (now : Int) (cols : List String) : Option RowEntry :=
  match cols with
  | c0 :: c1 :: _ =>
    let date_str := pyReplaceNbsp c1
    match parseDate date_str with
    | some dt =>
      some { sammlung := c0, wann := date_str,
             date_obj := dt.toRata, days_until := daysUntilPy dt now }
    | none => none
  | _ => none

/-- Stable insertion of an entry into a date-sorted list (an entry goes
before the first entry whose date is not smaller). -/
def insertByDate (e : RowEntry) : List RowEntry → List RowEntry
  | [] => [e]
  | f :: rest =>
    if e.date_obj ≤ f.date_obj then e :: f :: rest
    else f :: insertByDate e rest

/-- Line 150: `entries.sort(key=lambda x: x["date_obj"])`.  Python's sort
is the stable ascending sort; a stable sort's output is uniquely
determined by the key order, so this stable insertion sort computes the
same list. -/
def sortByDate : List RowEntry → List RowEntry
  | [] => []
  | e :: rest => insertByDate e (sortByDate rest)

/-- Lines 127-165: build the entry list from the first three data rows,
sort it, and assemble the success dict. -/
def summarizeRows (table : Table) (now : Int) : Summary :=
  let entries := ((table.rows.drop 1).take 3).filterMap (rowToEntry now)
  let sorted := sortByDate entries
  { next_collection := sorted.head?.map (fun e => e.sammlung),
    date := sorted.head?.map (fun e => e.wann),
    type := sorted.head?.map (fun e => e.sammlung),
    days_until := sorted.head?.map (fun e => e.days_until),
    entries := (sorted.take 3).map
      (fun e => { type := e.sammlung, date := e.wann, days_until := e.days_until }),
    error := none }

/-- The exceptions the `try` block of `async_update` can raise. -/
inductive Exc where
  | authExpired
  | httpStatus (status : Nat)
  | noTable
  | noDataRows
  | netFail (msg : String)
deriving DecidableEq, Repr

/-- The page named in the token-expiry message (lines 108-111). -/
def refreshPageUrl : String := "https://www.uster.ch/abfallstrassenabschnitt"

/-- The message of the exception raised for status 403/404. -/
def tokenErrorMsg : String :=
  "Token expired or invalid. Please get a fresh URL from https://www.uster.ch/abfallstrassenabschnitt"

/-- `str(e)` for each exception.  The 403/404 message and the two
`ValueError` messages are the literals in sensor.py; the text of an
`aiohttp` status error and of a network error are produced by the library
and carried abstractly. -/
def Exc.str : Exc → String
  | .authExpired => tokenErrorMsg
  | .httpStatus s => "Response status " ++ toString s
  | .noTable => "No table found on page."
  | .noDataRows => "Table has no data rows."
  | .netFail m => m

/-- The outcome of the awaited `session.get`: a response with a status and
a (parsed) HTML body, or a raised connection/timeout error. -/
inductive NetResult where
  | response (status : Nat) (body : Html)
  | netError (msg : String)
deriving DecidableEq, Repr

/-- Lines 116-125: table discovery and the minimum-row check. -/
def parseHtml (html : Html) (now : Int) : Except Exc Summary :=
  match findTable html with
  | none => .error .noTable
  | some table =>
    if table.rows.length < 2 then .error .noDataRows
    else .ok (summarizeRows table now)

/-- Body of the `try` block, lines 106-165: classify the status (403/404
raise the token message, `raise_for_status` raises on any status ≥ 400),
then parse and summarize. -/
def runFetchParse (net : NetResult) (now : Int) : Except Exc Summary :=
  match net with
  | .netError msg => .error (.netFail msg)
  | .response status html =>
    if status == 403 || status == 404 then .error .authExpired
    else if 400 ≤ status then .error (.httpStatus status)
    else parseHtml html now

/-- The coordinator's mutable fields (`self.data`, `self.last_error`,
`self.last_updated`), all `None` after `__init__`. -/
structure CoordState where
  data : Option Summary
  last_error : Option String
  last_updated : Option Int
deriving DecidableEq, Repr

/-- `SCAN_INTERVAL = timedelta(days=1)` in seconds. -/
def SCAN_INTERVAL : Int := 86400

/-- The state after `__init__` (lines 89-91). -/
def initState : CoordState :=
  { data := none, last_error := none, last_updated := none }

/-- Line 96: `self.last_updated and (datetime.now() - self.last_updated)
< SCAN_INTERVAL`. -/
def cacheFresh (st : CoordState) (now : Int) : Bool :=
  match st.last_updated with
  | some t => now - t < SCAN_INTERVAL
  | none => false

/-- The error dict of lines 170-175: `error` set, `next_collection` and
`date` set to `None`, `entries` empty, `type` and `days_until` keys absent
(hence `none` under `get`). -/
def errorSummary (msg : String) : Summary :=
  { next_collection := none, date := none, type := none, days_until := none,
    entries := [], error := some msg }

/-- Result of one `async_update` call: the new coordinator state, the
returned `self.data`, and whether the `try` block (the network request)
ran. -/
structure UpdateResult where
  state : CoordState
  ret : Option Summary
  fetched : Bool
deriving DecidableEq, Repr

/-- Lines 105-177: run the pipeline; on success store the summary and set
`last_updated` (line 166; `last_error` is left as it was), on any
exception store the error dict and set `last_error` (lines 168-176;
`last_updated` is left as it was). -/
def doFetch (st : CoordState) (now : Int) (net : NetResult) : UpdateResult :=
  match runFetchParse net now with
  | .ok summary =>
    let st2 : CoordState := { st with data := some summary, last_updated := some now }
    { state := st2, ret := some summary, fetched := true }
  | .error e =>
    let msg := Exc.str e
    let st2 : CoordState := { st with data := some (errorSummary msg), last_error := some msg }
    { state := st2, ret := some (errorSummary msg), fetched := true }

/-- `UsterWasteDataUpdateCoordinator.async_update`, lines 93-178: return
the cached `self.data` when the cache is fresh, otherwise fetch. -/
def asyncUpdate (st : CoordState) (now : Int) (net : NetResult) : UpdateResult :=
  if cacheFresh st now then { state := st, ret := st.data, fetched := false }
  else doFetch st now net

/-! ## Concrete fixtures used in the claims -/

/-- The two characters of a zero-padded two-digit numeral. -/
def twoDigitChars (n : Nat) : List Char :=
  [Char.ofNat (48 + n / 10), Char.ofNat (48 + n % 10)]

/-- A summary as produced by a successful refresh, used as concrete cached
data in the coordinator claims. -/
def goodSummaryEx : Summary :=
  { next_collection := some "Karton", date := some "24.10.2023",
    type := some "Karton", days_until := some 5,
    entries := [{ type := "Karton", date := "24.10.2023", days_until := 5 }],
    error := none }

/-- A coordinator state holding a previously successful summary fetched at
time 0. -/
def cachedStateEx : CoordState :=
  { data := some goodSummaryEx, last_error := none, last_updated := some 0 }

/-- A document whose first table lacks the marker and whose second carries
it. -/
def htmlTwoTablesEx : Html :=
  { tables := [ { hasMarker := false, rows := [] },
                { hasMarker := true, rows := [["Sammlung", "Datum"]] } ] }

/-- A table with a header row and one data row whose date text parses
under no template. -/
def tableUnparsableEx : Table :=
  { hasMarker := true, rows := [["Sammlung", "Datum"], ["Karton", "banana"]] }

/-- A document containing only `tableUnparsableEx`. -/
def htmlUnparsableEx : Html := { tables := [tableUnparsableEx] }

/-- The success dict built when the entry list ends up empty: every
`next_*` field is `None` and `entries` is `[]`, with no `error` key. -/
def emptySuccessSummary : Summary :=
  { next_collection := none, date := none, type := none, days_until := none,
    entries := [], error := none }

/-- A document with one marked table, a header row, and one data row dated
24.10.2023 (day number 19654). -/
def htmlTomorrowEx : Html :=
  { tables := [ { hasMarker := true,
                  rows := [["Sammlung", "Datum"], ["Karton", "24.10.2023"]] } ] }

/-- 10:00:00 on 23.10.2023 (day number 19653), one calendar day before the
row of `htmlTomorrowEx`. -/
def nowMorningEx : Int := 86400 * 19653 + 36000

/-! ## Claims about the date parser -/

/-- C3: the claim that every date string containing a valid German month
abbreviation parses to the same date as its fully numeric equivalent is
false at the claim's own example: `_parse_date` substitutes the
abbreviation but never collapses the stray period/space characters, so
`"24. Okt. 2023"` fails both numeric templates and yields `None`, while
`"24.10.2023"` parses. -/
theorem C3_spaced_abbreviation_cex :
    parseDate "24. Okt. 2023" = none ∧
    parseDate "24.10.2023" = some { year := 2023, month := 10, day := 24 } := by
  decide

/-- C3 (amended): abbreviation substitution does make the abbreviated and
numeric forms agree, but only when the abbreviation sits directly between
the periods with no extra spaces: for every pair of `MONTH_MAP`, the
string `24.<abbrev>.2023` parses to the same (defined) date as
`24.<number>.2023`. -/
theorem C3_adjacent_abbreviation_amended :
    (MONTH_MAP.all fun kv =>
      parseDate ("24." ++ kv.1 ++ ".2023") == parseDate ("24." ++ kv.2 ++ ".2023")
        && (parseDate ("24." ++ kv.2 ++ ".2023")).isSome) = true := by
  decide

/-- C9: whenever neither numeric template accepts the normalized string
(the strict regex match fails, or the matched numbers do not form a valid
calendar date), `_parse_date` returns `None`; as a total Lean function it
can raise nothing. -/
theorem C9_no_template_match_returns_none (s : String)
    (h4 : strptimeFullYear (normalizeDateStr s) = none)
    (h2 : strptimeTwoDigitYear (normalizeDateStr s) = none) :
    parseDate s = none := by
  simp only [parseDate, h4, h2]

/-- Witness for C9 at the out-of-range input `"31.02.2023"` (the regex
accepts day 31 and month 02, the calendar check then rejects them). -/
theorem C9_witness :
    strptimeFullYear (normalizeDateStr "31.02.2023") = none ∧
    strptimeTwoDigitYear (normalizeDateStr "31.02.2023") = none ∧
    parseDate "31.02.2023" = none :=
  ⟨by decide, by decide,
    C9_no_template_match_returns_none "31.02.2023" (by decide) (by decide)⟩

/-- C10: every two-digit year accepted through the `"%d.%m.%y"` template
is resolved by the POSIX rule: 00-68 become 2000-2068 and 69-99 become
1969-1999 (checked here on `15.06.<yy>` for every `yy < 100`). -/
theorem C10_two_digit_year_century_rule :
    ∀ n : Nat, n < 100 →
      parseDate (String.mk ('1' :: '5' :: '.' :: '0' :: '6' :: '.' :: twoDigitChars n)) =
        some { year := if n ≤ 68 then 2000 + n else 1900 + n, month := 6, day := 15 } := by
  decide

/-- Witness for C10 on both sides of the century boundary. -/
theorem C10_witness :
    5 < 100 ∧ 99 < 100 ∧
    parseDate (String.mk ('1' :: '5' :: '.' :: '0' :: '6' :: '.' :: twoDigitChars 5)) =
      some { year := if 5 ≤ 68 then 2000 + 5 else 1900 + 5, month := 6, day := 15 } ∧
    parseDate (String.mk ('1' :: '5' :: '.' :: '0' :: '6' :: '.' :: twoDigitChars 99)) =
      some { year := if 99 ≤ 68 then 2000 + 99 else 1900 + 99, month := 6, day := 15 } :=
  ⟨by decide, by decide,
    C10_two_digit_year_century_rule 5 (by decide),
    C10_two_digit_year_century_rule 99 (by decide)⟩

/-! ## Claims about the update coordinator -/

/-- C6: with a cached summary whose age is below `SCAN_INTERVAL`, a
refresh request returns the cached summary at once, runs no network
request, and leaves the coordinator state unchanged. -/
theorem C6_fresh_cache_returns_cached (st : CoordState) (now : Int)
    (net : NetResult) (t : Int) (s : Summary)
    (ht : st.last_updated = some t) (hage : now - t < SCAN_INTERVAL)
    (hs : st.data = some s) :
    asyncUpdate st now net = { state := st, ret := some s, fetched := false } := by
  have hfresh : cacheFresh st now = true := by
    simp [cacheFresh, ht, hage]
  simp [asyncUpdate, hfresh, hs]

/-- Witness for C6: a fresh cache at age 100 seconds. -/
theorem C6_witness :
    cachedStateEx.last_updated = some 0 ∧ (100 : Int) - 0 < SCAN_INTERVAL ∧
    cachedStateEx.data = some goodSummaryEx ∧
    asyncUpdate cachedStateEx 100 (NetResult.netError "unreachable") =
      { state := cachedStateEx, ret := some goodSummaryEx, fetched := false } :=
  ⟨rfl, by decide, rfl,
    C6_fresh_cache_returns_cached cachedStateEx 100 (NetResult.netError "unreachable")
      0 goodSummaryEx rfl (by decide) rfl⟩

/-- A stale or absent cache sends `async_update` into the fetch path. -/
theorem asyncUpdate_stale (st : CoordState) (now : Int) (net : NetResult)
    (h : cacheFresh st now = false) :
    asyncUpdate st now net = doFetch st now net := by
  unfold asyncUpdate
  rw [h]
  simp

/-- Both branches of the fetch path consume the network request. -/
theorem doFetch_fetched (st : CoordState) (now : Int) (net : NetResult) :
    (doFetch st now net).fetched = true := by
  unfold doFetch
  cases runFetchParse net now <;> rfl

/-- The table chooser returns nothing exactly on table-free documents. -/
theorem findTable_eq_none_iff (html : Html) :
    findTable html = none ↔ html.tables = [] := by
  unfold findTable
  cases hfind : html.tables.find? (fun tb => tb.hasMarker) with
  | some t =>
    simp only []
    constructor
    · intro h; exact absurd h (by simp)
    · intro h; rw [h] at hfind; simp at hfind
  | none =>
    simp [List.head?_eq_none_iff]

/-- C7: the parser prefers the table carrying the
`"table table-striped"` marker, falls back to the first table otherwise,
and fails with the no-table error exactly when the document has no table
at all. -/
theorem C7_table_selection (html : Html) (now : Int) :
    (parseHtml html now = Except.error Exc.noTable ↔ html.tables = []) ∧
    (∀ t, html.tables.find? (fun tb => tb.hasMarker) = some t →
      findTable html = some t) ∧
    (html.tables.find? (fun tb => tb.hasMarker) = none →
      findTable html = html.tables.head?) := by
  refine ⟨?_, ?_, ?_⟩
  · cases hf : findTable html with
    | none =>
      have hnil := (findTable_eq_none_iff html).mp hf
      simp [parseHtml, hf, hnil]
    | some table =>
      have hne : html.tables ≠ [] := by
        intro h
        rw [(findTable_eq_none_iff html).mpr h] at hf
        exact absurd hf (by simp)
      simp only [parseHtml, hf]
      constructor
      · intro h
        split at h <;> simp_all
      · intro h
        exact absurd h hne
  · intro t h
    unfold findTable
    rw [h]
  · intro h
    unfold findTable
    rw [h]

/-- Witness for C7 applying the marker-preference part at a concrete
document: the marked second table is selected over the unmarked first. -/
theorem C7_witness :
    findTable htmlTwoTablesEx = some { hasMarker := true, rows := [["Sammlung", "Datum"]] } :=
  (C7_table_selection htmlTwoTablesEx 0).2.1
    { hasMarker := true, rows := [["Sammlung", "Datum"]] } (by decide)

/-- C8: a response with status 403 or 404 is classified as a token
expiry before any other handling: the stored error and the returned
summary carry the dedicated token message, which names the page a fresh
URL can be obtained from; the call itself returns normally. -/
theorem C8_auth_status_classification (st : CoordState) (now : Int)
    (status : Nat) (html : Html)
    (hstatus : status = 403 ∨ status = 404)
    (hstale : cacheFresh st now = false) :
    (asyncUpdate st now (NetResult.response status html)).state.last_error
        = some tokenErrorMsg ∧
    (asyncUpdate st now (NetResult.response status html)).state.data
        = some (errorSummary tokenErrorMsg) ∧
    (asyncUpdate st now (NetResult.response status html)).ret
        = some (errorSummary tokenErrorMsg) ∧
    tokenErrorMsg = "Token expired or invalid. Please get a fresh URL from " ++ refreshPageUrl := by
  have hrun : runFetchParse (NetResult.response status html) now
      = Except.error Exc.authExpired := by
    rcases hstatus with h | h <;> subst h <;> rfl
  refine ⟨?_, ?_, ?_, by decide⟩ <;>
    simp [asyncUpdate, hstale, doFetch, hrun, Exc.str]

/-- Witness for C8: a 403 response on the first ever refresh. -/
theorem C8_witness :
    cacheFresh initState 0 = false ∧
    ((asyncUpdate initState 0 (NetResult.response 403 { tables := [] })).state.last_error
        = some tokenErrorMsg ∧
      (asyncUpdate initState 0 (NetResult.response 403 { tables := [] })).state.data
        = some (errorSummary tokenErrorMsg) ∧
      (asyncUpdate initState 0 (NetResult.response 403 { tables := [] })).ret
        = some (errorSummary tokenErrorMsg) ∧
      tokenErrorMsg = "Token expired or invalid. Please get a fresh URL from " ++ refreshPageUrl) :=
  ⟨by decide,
    C8_auth_status_classification initState 0 403 { tables := [] } (Or.inl rfl) (by decide)⟩

/-- C1: the claim that a failed refresh preserves a previously cached
good summary is false: the exception handler of `async_update`
unconditionally assigns the error dict to `self.data`, so a network
failure at a stale-cache moment evicts the cached summary. -/
theorem C1_failed_refresh_evicts_cache_cex :
    (asyncUpdate cachedStateEx 172800 (NetResult.netError "connection lost")).state.data
        = some (errorSummary "connection lost") ∧
    (asyncUpdate cachedStateEx 172800 (NetResult.netError "connection lost")).state.data
        ≠ some goodSummaryEx := by
  decide

/-- C1 (amended): whenever a refresh actually fetches and the pipeline
fails, the coordinator stores the error-shaped summary over `self.data`
regardless of any previously cached summary, and records the message in
`last_error`. -/
theorem C1_failed_refresh_stores_error_amended (st : CoordState) (now : Int)
    (net : NetResult) (e : Exc)
    (hstale : cacheFresh st now = false)
    (hfail : runFetchParse net now = Except.error e) :
    (asyncUpdate st now net).state.data = some (errorSummary (Exc.str e)) ∧
    (asyncUpdate st now net).state.last_error = some (Exc.str e) := by
  constructor <;> simp [asyncUpdate, hstale, doFetch, hfail]

/-- Witness for C1 (amended): the eviction of `cachedStateEx` by a
network failure two days after the cached fetch. -/
theorem C1_amended_witness :
    cacheFresh cachedStateEx 172800 = false ∧
    runFetchParse (NetResult.netError "connection lost") 172800
        = Except.error (Exc.netFail "connection lost") ∧
    ((asyncUpdate cachedStateEx 172800 (NetResult.netError "connection lost")).state.data
        = some (errorSummary (Exc.str (Exc.netFail "connection lost"))) ∧
      (asyncUpdate cachedStateEx 172800 (NetResult.netError "connection lost")).state.last_error
        = some (Exc.str (Exc.netFail "connection lost"))) :=
  ⟨by decide, rfl,
    C1_failed_refresh_stores_error_amended cachedStateEx 172800
      (NetResult.netError "connection lost") (Exc.netFail "connection lost")
      (by decide) rfl⟩

/-- C2: the claim that zero surviving rows yield a ParseError is false:
on a page whose table has a header row and one data row with an
unparsable date, `async_update` builds an ordinary success dict with all
`next_*` fields `None` and an empty entry list, not an error. -/
theorem C2_zero_surviving_rows_cex :
    parseHtml htmlUnparsableEx 0 = Except.ok emptySuccessSummary :=
  rfl

/-- C2 (amended): whenever the selected table passes the minimum-row
check but no examined row survives cell extraction and date parsing, the
parse succeeds with the empty summary (`next_*` fields `None`, empty
entry list, no error). -/
theorem C2_zero_surviving_rows_amended (html : Html) (now : Int) (table : Table)
    (hfind : findTable html = some table)
    (hrows : 2 ≤ table.rows.length)
    (hnone : ((table.rows.drop 1).take 3).filterMap (rowToEntry now) = []) :
    parseHtml html now = Except.ok emptySuccessSummary := by
  have h2 : ¬ table.rows.length < 2 := Nat.not_lt.mpr hrows
  have hnone2 : (table.rows.tail.take 3).filterMap (rowToEntry now) = [] := by
    simpa using hnone
  simp [parseHtml, hfind, h2, summarizeRows, hnone2, sortByDate, emptySuccessSummary]

/-- Witness for C2 (amended) on the concrete unparsable-row document. -/
theorem C2_amended_witness :
    findTable htmlUnparsableEx = some tableUnparsableEx ∧
    2 ≤ tableUnparsableEx.rows.length ∧
    ((tableUnparsableEx.rows.drop 1).take 3).filterMap (rowToEntry 0) = [] ∧
    parseHtml htmlUnparsableEx 0 = Except.ok emptySuccessSummary :=
  ⟨rfl, by decide, by decide,
    C2_zero_surviving_rows_amended htmlUnparsableEx 0 tableUnparsableEx rfl
      (by decide) (by decide)⟩

/-- C4: the claim that `days_until` equals the calendar-date difference
regardless of the time of day is false: for a row dated one calendar day
ahead, a refresh at 10:00 stores `days_until = 0`, because the code takes
`(dt - now).days`, the floor of a `timedelta` that is 14 hours short of a
full day. -/
theorem C4_days_until_floor_cex :
    (parseHtml htmlTomorrowEx nowMorningEx =
      Except.ok { next_collection := some "Karton", date := some "24.10.2023",
                  type := some "Karton", days_until := some 0,
                  entries := [{ type := "Karton", date := "24.10.2023", days_until := 0 }],
                  error := none }) ∧
    Date.toRata { year := 2023, month := 10, day := 24 } - Int.fdiv nowMorningEx 86400 = 1 := by
  exact ⟨rfl, by decide⟩

/-- C4 (amended): for every parsed entry, `days_until` equals the
calendar-date difference minus one whenever the refresh runs strictly
after midnight, and equals it exactly at midnight; rows are turned into
entries by date validity alone, never filtered by the sign of
`days_until`. -/
theorem C4_days_until_formula_amended :
    (∀ (dt : Date) (q r : Int), 0 ≤ r → r < 86400 →
      daysUntilPy dt (86400 * q + r) = dt.toRata - q - (if r = 0 then 0 else 1)) ∧
    (∀ (now : Int) (c0 c1 : String) (rest : List String) (dt : Date),
      parseDate (pyReplaceNbsp c1) = some dt →
      rowToEntry now (c0 :: c1 :: rest) =
        some { sammlung := c0, wann := pyReplaceNbsp c1,
               date_obj := dt.toRata, days_until := daysUntilPy dt now }) := by
  constructor
  · intro dt q r h0 h1
    unfold daysUntilPy
    rw [Int.fdiv_eq_ediv _ (by norm_num)]
    split <;> omega
  · intro now c0 c1 rest dt h
    simp [rowToEntry, h]

/-- Witness for C4 (amended): the 10:00 refresh of `nowMorningEx` gives
`days_until` one less than the calendar difference, and the concrete row
of `htmlTomorrowEx` becomes an entry. -/
theorem C4_amended_witness :
    ((0 : Int) ≤ 36000 ∧ (36000 : Int) < 86400 ∧
      daysUntilPy { year := 2023, month := 10, day := 24 } (86400 * 19653 + 36000) =
        Date.toRata { year := 2023, month := 10, day := 24 } - 19653
          - (if (36000 : Int) = 0 then 0 else 1)) ∧
    (parseDate (pyReplaceNbsp "24.10.2023") = some { year := 2023, month := 10, day := 24 } ∧
      rowToEntry nowMorningEx ("Karton" :: "24.10.2023" :: []) =
        some { sammlung := "Karton", wann := pyReplaceNbsp "24.10.2023",
               date_obj := Date.toRata { year := 2023, month := 10, day := 24 },
               days_until := daysUntilPy { year := 2023, month := 10, day := 24 } nowMorningEx }) :=
  ⟨⟨by decide, by decide,
      C4_days_until_formula_amended.1 { year := 2023, month := 10, day := 24 }
        19653 36000 (by decide) (by decide)⟩,
    ⟨by decide,
      C4_days_until_formula_amended.2 nowMorningEx "Karton" "24.10.2023" []
        { year := 2023, month := 10, day := 24 } (by decide)⟩⟩

/-- C5: the claim that a failed attempt updates the last-fetch timestamp
(suppressing an immediate retry) is false: `self.last_updated` is only
assigned in the success path, so after a failed first fetch the timestamp
is still unset and a refresh one second later fetches again. -/
theorem C5_failed_attempt_timestamp_cex :
    (asyncUpdate initState 0 (NetResult.netError "timeout")).state.last_updated = none ∧
    (asyncUpdate initState 0 (NetResult.netError "timeout")).state.last_updated ≠ some 0 ∧
    (asyncUpdate (asyncUpdate initState 0 (NetResult.netError "timeout")).state 1
        (NetResult.netError "timeout again")).fetched = true := by
  decide

/-- C5 (amended): a failed refresh leaves `last_updated` exactly as it
was; in particular, when no successful fetch ever happened, every
subsequent refresh request triggers the network again. -/
theorem C5_failure_leaves_timestamp_amended (st : CoordState) (now : Int)
    (net : NetResult) (e : Exc)
    (hstale : cacheFresh st now = false)
    (hfail : runFetchParse net now = Except.error e) :
    (asyncUpdate st now net).state.last_updated = st.last_updated ∧
    (st.last_updated = none →
      ∀ (now2 : Int) (net2 : NetResult),
        (asyncUpdate (asyncUpdate st now net).state now2 net2).fetched = true) := by
  have h1 : (asyncUpdate st now net).state.last_updated = st.last_updated := by
    simp [asyncUpdate, hstale, doFetch, hfail]
  refine ⟨h1, fun hnone now2 net2 => ?_⟩
  have hfresh2 : cacheFresh (asyncUpdate st now net).state now2 = false := by
    simp [cacheFresh, h1, hnone]
  rw [asyncUpdate_stale _ _ _ hfresh2, doFetch_fetched]

/-- Witness for C5 (amended): the failed first fetch keeps
`last_updated = none` and the refresh one second later hits the network. -/
theorem C5_amended_witness :
    cacheFresh initState 0 = false ∧
    runFetchParse (NetResult.netError "timeout") 0 = Except.error (Exc.netFail "timeout") ∧
    (asyncUpdate initState 0 (NetResult.netError "timeout")).state.last_updated
        = initState.last_updated ∧
    (asyncUpdate (asyncUpdate initState 0 (NetResult.netError "timeout")).state 1
        (NetResult.response 200 { tables := [] })).fetched = true :=
  ⟨by decide, rfl,
    (C5_failure_leaves_timestamp_amended initState 0 (NetResult.netError "timeout")
      (Exc.netFail "timeout") (by decide) rfl).1,
    (C5_failure_leaves_timestamp_amended initState 0 (NetResult.netError "timeout")
      (Exc.netFail "timeout") (by decide) rfl).2 rfl 1 (NetResult.response 200 { tables := [] })⟩

end UsterWaste
